/-
Verification of the dict-model library: a shallow embedding, in Lean 4, of
`src/dict_model/__init__.py` together with proofs about the behaviour of its
record and queryset operations.

Modelling conventions:
* Python attribute values that appear in record data mappings and in filter
  criteria are modelled by the inductive type `PyValue` (None, booleans,
  integers, strings, and plain external objects carrying a class name and an
  id).  Floats and callables stored in data mappings are outside this value
  universe; no claim examined here depends on them.
* Python dictionaries are modelled as association lists in insertion order
  (Python dict keys are unique and iteration follows insertion order).
* Raising an exception is modelled with `Except`: a function that can raise
  returns `Except e a`, and an expression that propagates an exception from a
  subcomputation does so via explicit matching / bind.
* `DictModel.__getattr__` falls back to the instance's data mapping and raises
  AttributeError on a missing key.  Ordinary attribute lookup on a record
  instance first consults the instance attributes set by `__init__` (`id`,
  `related`, `related_name`, and the attribute named by `related_name`), then
  that fallback.  Class-level attributes (methods, `object_data`, the raw
  `data` dict) and the pathological case where the related class name collides
  with a built-in instance attribute name are outside the modelled lookup
  universe; no claim filters on them.
-/
import Mathlib

/-- Python values appearing in dict-model data mappings and filter criteria.
`obj className oid` stands for an external application object exposing a class
name and an `id` attribute (used as the `related` object of a record). -/
inductive PyValue where
  | none : PyValue
  | bool : Bool → PyValue
  | int : Int → PyValue
  | str : String → PyValue
  | obj : String → Int → PyValue
  deriving DecidableEq, Repr

/-- Python truthiness of a `PyValue` (`bool(value)`): None and False are falsy,
numbers are truthy iff nonzero, strings iff nonempty, plain objects always. -/
def PyValue.truthy : PyValue → Bool
  | .none => false
  | .bool b => b
  | .int n => n != 0
  | .str s => s != ""
  | .obj _ _ => true

/-- Python `==` on the modelled value universe.  Booleans and integers compare
numerically (`True == 1` holds in Python); values of unrelated kinds compare
unequal; external objects compare by identity, approximated structurally. -/
def pyEq : PyValue → PyValue → Bool
  | .none, .none => true
  | .bool a, .bool b => a == b
  | .bool a, .int n => (if a then (1 : Int) else 0) == n
  | .int n, .bool a => n == (if a then (1 : Int) else 0)
  | .int a, .int b => a == b
  | .str a, .str b => a == b
  | .obj c i, .obj c' i' => c == c' && i == i'
  | _, _ => false

/-- Python `!=` on the modelled value universe. -/
def pyNe (a b : PyValue) : Bool := !(pyEq a b)

/-- Lexicographic comparison of character lists by code point: the order
Python's `sorted` uses on strings. -/
def charListLe : List Char → List Char → Bool
  | [], _ => true
  | _ :: _, [] => false
  | x :: xs, y :: ys => if x = y then charListLe xs ys else decide (x < y)

/-- The string order used when modelling Python's `sorted` on key lists. -/
def strLeRel (a b : String) : Prop := charListLe a.data b.data = true

instance : DecidableRel strLeRel := fun a b => by
  unfold strLeRel; infer_instance

/-- The lexicographic order on character lists is total. -/
instance : IsTotal String strLeRel :=
  ⟨fun a b => by
    show charListLe a.data b.data = true ∨ charListLe b.data a.data = true
    generalize a.data = l; generalize b.data = m
    induction l generalizing m with
    | nil => exact Or.inl rfl
    | cons x xs ih =>
      cases m with
      | nil => exact Or.inr rfl
      | cons y ys =>
        by_cases hxy : x = y
        · subst hxy
          simpa [charListLe] using ih ys
        · rcases lt_or_gt_of_ne hxy with h | h
          · left; simp [charListLe, hxy, h]
          · right
            have hyx : y ≠ x := fun h' => hxy h'.symm
            simp [charListLe, hyx, h]⟩

/-- The lexicographic order on character lists is transitive. -/
instance : IsTrans String strLeRel :=
  ⟨fun a b c hab hbc => by
    show charListLe a.data c.data = true
    revert hab hbc
    show charListLe a.data b.data = true → charListLe b.data c.data = true →
      charListLe a.data c.data = true
    generalize a.data = l; generalize b.data = m; generalize c.data = n
    intro hab hbc
    induction l generalizing m n with
    | nil => rfl
    | cons x xs ih =>
      cases m with
      | nil => simp [charListLe] at hab
      | cons y ys =>
        cases n with
        | nil => simp [charListLe] at hbc
        | cons z zs =>
          by_cases hxy : x = y
          · subst hxy
            simp only [charListLe, if_pos rfl] at hab
            by_cases hxz : x = z
            · subst hxz
              simp only [charListLe, if_pos rfl] at hbc ⊢
              exact ih ys zs hab hbc
            · simp only [charListLe, if_neg hxz] at hbc ⊢
              exact hbc
          · simp only [charListLe, if_neg hxy] at hab
            have hxyl : x < y := of_decide_eq_true hab
            by_cases hyz : y = z
            · subst hyz
              simp only [charListLe, if_neg hxy]
              exact decide_eq_true hxyl
            · simp only [charListLe, if_neg hyz] at hbc
              have hyzl : y < z := of_decide_eq_true hbc
              have hxzl : x < z := lt_trans hxyl hyzl
              have hxz : x ≠ z := ne_of_lt hxzl
              simp only [charListLe, if_neg hxz]
              exact decide_eq_true hxzl⟩

/-- The lexicographic order on character lists is antisymmetric. -/
instance : IsAntisymm String strLeRel :=
  ⟨fun a b hab hba => by
    have key : ∀ (l m : List Char), charListLe l m = true →
        charListLe m l = true → l = m := by
      intro l
      induction l with
      | nil =>
        intro m h1 h2
        cases m with
        | nil => rfl
        | cons y ys => simp [charListLe] at h2
      | cons x xs ih =>
        intro m h1 h2
        cases m with
        | nil => simp [charListLe] at h1
        | cons y ys =>
          by_cases hxy : x = y
          · subst hxy
            simp only [charListLe, if_pos rfl] at h1 h2
            rw [ih ys h1 h2]
          · simp only [charListLe, if_neg hxy] at h1
            have hyx : y ≠ x := fun h' => hxy h'.symm
            simp only [charListLe, if_neg hyx] at h2
            exact absurd (of_decide_eq_true h2)
              (not_lt_of_lt (of_decide_eq_true h1))
    have h := key a.data b.data hab hba
    cases a; cases b; exact congrArg String.mk h⟩

/-- Helper for `snake_case`: inserts an underscore before every upper-case
character (the regex `(?<!^)(?=[A-Z])` applied to every non-initial position).
-/
def snakeCaseTail : List Char → List Char
  | [] => []
  | c :: rest => (if c.isUpper then ['_', c] else [c]) ++ snakeCaseTail rest

/-- `snake_case(pascal_case)`: insert `_` before each non-initial upper-case
letter, then lower-case the whole string
(`re.sub(r"(?<!^)(?=[A-Z])", "_", pascal_case).lower()`). -/
def snake_case (s : String) : String :=
  String.mk ((match s.data with
    | [] => []
    | c :: rest => c :: snakeCaseTail rest).map Char.toLower)

/-- Python's `str.upper()` restricted to the character-level map used by the
registration helper's derived constant names. -/
def upperStr (s : String) : String := String.mk (s.data.map Char.toUpper)

/-- An external related object: the Record layer only requires a class name
(for deriving `related_name`) and an `id` attribute (for repr). -/
structure Related where
  className : String
  id : Int
  deriving DecidableEq, Repr

/-- A `DictModel` record instance as produced by `DictModel.__init__`:
`self.id = id`, `self.related = related`,
`self.related_name = snake_case(related.__class__.__name__)`,
`setattr(self, self.related_name, related)`, and
`self.data = self.object_data[id]`.  The attribute bound by the `setattr`
call is recoverable from `relatedName` and `related`, so it is not stored
separately. -/
structure DictModelObj where
  className : String
  id : Int
  related : Option Related
  relatedName : String
  data : List (String × PyValue)
  deriving DecidableEq, Repr

/-- The value of the `related` attribute (and of the attribute named by
`related_name`) seen as a `PyValue`: `None` or the external object. -/
def DictModelObj.relatedValue (o : DictModelObj) : PyValue :=
  match o.related with
  | Option.none => PyValue.none
  | Option.some r => PyValue.obj r.className r.id

/-- Attribute lookup on a record instance, `getattr(obj, key)`: first the
instance attributes set by `__init__` (`id`, `related`, `related_name`, and
the attribute named by `related_name`), then the `__getattr__` fallback into
the data mapping; `Option.none` models the AttributeError raised by
`__getattr__` when the key is absent from the data mapping. -/
def DictModelObj.getattr (o : DictModelObj) (key : String) : Option PyValue :=
  if key = "id" then Option.some (PyValue.int o.id)
  else if key = "related" then Option.some o.relatedValue
  else if key = "related_name" then Option.some (PyValue.str o.relatedName)
  else if key = o.relatedName then Option.some o.relatedValue
  else o.data.lookup key

/-- The right operand of `DictModel.__eq__`: an arbitrary Python value, of
which the comparison only ever reads the `id` attribute (`idAttr =
Option.none` models a value with no `id` attribute). -/
structure AnyObj where
  idAttr : Option Int
  deriving DecidableEq, Repr

/-- A record viewed as a `__eq__` right operand: it exposes its `id`. -/
def DictModelObj.asAny (r : DictModelObj) : AnyObj := ⟨Option.some r.id⟩

namespace DictModel

/-- `DictModel.__eq__`: `try: return self.id == other.id except
AttributeError: return False`.  Reading a missing `id` attribute raises
AttributeError, which the handler turns into `False`. -/
def eq (self : DictModelObj) (other : AnyObj) : Bool :=
  match other.idAttr with
  | Option.some i => self.id == i
  | Option.none => false

end DictModel

/-- A `DictModel` subclass: its name, the `validate_fields` flag, the
`optional_fields` list and the `object_data` mapping (an insertion-ordered
association list from integer id to attribute mapping). -/
structure DictModelClass where
  className : String
  validate_fields : Bool
  optional_fields : List String
  object_data : List (Int × List (String × PyValue))
  deriving Repr

namespace DictModel

/-- One entry's canonical field list,
`sorted(list(set(type_attrs.keys()) - _optional_fields))`: the entry's keys,
deduplicated, minus the optional fields, sorted. -/
def canonicalFields (optional_fields : List String)
    (attrs : List (String × PyValue)) : List String :=
  List.insertionSort strLeRel
    (((attrs.map Prod.fst).dedup).filter (fun k => !optional_fields.contains k))

/-- The loop of `DictModel._validate_fields`: `acc` models the running
`_fields` variable (starting as `None`); each step executes
`_fields = _fields or type_fields` — a falsy `_fields` (`None` or the empty
list) is replaced by the current entry's field list — and then raises
ValidationError if `_fields != type_fields`. -/
def validateFieldsGo (className : String) (acc : Option (List String)) :
    List (List String) → Except String Unit
  | [] => Except.ok ()
  | tf :: rest =>
    let f := match acc with
      | Option.some (k :: ks) => k :: ks
      | _ => tf
    if f ≠ tf then Except.error (className ++ ": Fields do not match!")
    else validateFieldsGo className (Option.some f) rest

/-- `DictModel._validate_fields`: returns immediately when the
`validate_fields` flag is off, otherwise checks each entry's canonical field
list as in `validateFieldsGo`. -/
def validate_fields_check (cls : DictModelClass) : Except String Unit :=
  if !cls.validate_fields then Except.ok ()
  else validateFieldsGo cls.className Option.none
    (cls.object_data.map (fun p => canonicalFields cls.optional_fields p.2))

/-- The label computed by `DictModel.choices` for one entry:
`type_data.get("choice") or type_data.get("name")` — the `choice` value when
it is present and truthy, otherwise the `name` value when present, otherwise
`None` (a `.get` miss yields `None`, and `x or y` yields `y` whenever `x` is
falsy). -/
def choiceLabel (attrs : List (String × PyValue)) : PyValue :=
  let cv := (attrs.lookup "choice").getD PyValue.none
  let nv := (attrs.lookup "name").getD PyValue.none
  if cv.truthy then cv else nv

/-- `DictModel.choices`: runs `_validate_fields` first, then builds the list
of `(id, label)` pairs over `object_data` in insertion order. -/
def choices (cls : DictModelClass) : Except String (List (Int × PyValue)) :=
  match validate_fields_check cls with
  | Except.error e => Except.error e
  | Except.ok () =>
    Except.ok (cls.object_data.map (fun p => (p.1, choiceLabel p.2)))

/-- The class name of a record's related object; `None.__class__.__name__`
is `"NoneType"`. -/
def relatedTypeName : Option Related → String
  | Option.none => "NoneType"
  | Option.some r => r.className

/-- `DictModel.__init__(self, id, related=None)`: sets `id`, `related`,
`related_name = snake_case(related.__class__.__name__)`, binds the attribute
named `related_name` to `related`, and looks the instance's data mapping up
as `self.object_data[id]`; `Option.none` models the KeyError raised when
`id` is absent. -/
def mkRecord (cls : DictModelClass) (id : Int) (related : Option Related) :
    Option DictModelObj :=
  match cls.object_data.lookup id with
  | Option.none => Option.none
  | Option.some d =>
    Option.some
      { className := cls.className
        id := id
        related := related
        relatedName := snake_case (relatedTypeName related)
        data := d }

end DictModel

namespace DictModelQueryset

/-- Exceptions a queryset operation can raise: the AttributeError propagated
out of `_check_filter`, and the two `get` cardinality errors. -/
inductive QueryError where
  | attrError : QueryError
  | noResultFound : QueryError
  | multipleResultsFound : QueryError
  deriving DecidableEq, Repr

/-- `DictModelQueryset._check_filter(obj, **kwargs)`: for each criteria pair
in order, `if getattr(obj, key) != value: return False`; a missing attribute
makes `getattr` raise AttributeError, which propagates. -/
def check_filter (obj : DictModelObj) :
    List (String × PyValue) → Except QueryError Bool
  | [] => Except.ok true
  | (key, value) :: rest =>
    match obj.getattr key with
    | Option.none => Except.error QueryError.attrError
    | Option.some x =>
      if pyNe x value then Except.ok false else check_filter obj rest

/-- `DictModelQueryset.filter(**kwargs)`: the list comprehension keeping the
objects for which `_check_filter` holds; an exception raised on any element
aborts the whole comprehension. -/
def filter (kwargs : List (String × PyValue)) :
    List DictModelObj → Except QueryError (List DictModelObj)
  | [] => Except.ok []
  | obj :: rest =>
    match check_filter obj kwargs with
    | Except.error e => Except.error e
    | Except.ok b =>
      match filter kwargs rest with
      | Except.error e => Except.error e
      | Except.ok r => Except.ok (if b then obj :: r else r)

/-- `DictModelQueryset.exclude(**kwargs)`: the comprehension keeping the
objects for which `_check_filter` does not hold. -/
def exclude (kwargs : List (String × PyValue)) :
    List DictModelObj → Except QueryError (List DictModelObj)
  | [] => Except.ok []
  | obj :: rest =>
    match check_filter obj kwargs with
    | Except.error e => Except.error e
    | Except.ok b =>
      match exclude kwargs rest with
      | Except.error e => Except.error e
      | Except.ok r => Except.ok (if b then r else obj :: r)

/-- `DictModelQueryset.all()`: a new queryset over the same data. -/
def all (q : List DictModelObj) : List DictModelObj := q

/-- `DictModelQueryset.count(item=None)`: `return len(self.data)` — the
`item` parameter is accepted but never consulted. -/
def count (q : List DictModelObj) (_item : Option AnyObj := Option.none) :
    Nat := q.length

/-- `DictModelQueryset.first()`: `self.data[0]`, with IndexError turned into
`None`. -/
def first (q : List DictModelObj) : Option DictModelObj := q.head?

/-- `DictModelQueryset.last()`: `self.data[-1]`, with IndexError turned into
`None`. -/
def last (q : List DictModelObj) : Option DictModelObj := q.getLast?

/-- `DictModelQueryset.get(**kwargs)`: filters, raises NoResultFound on an
empty (falsy) result, MultipleResultsFound when more than one object matched,
and otherwise returns `results.first()`; an AttributeError raised by `filter`
propagates. -/
def get (kwargs : List (String × PyValue)) (q : List DictModelObj) :
    Except QueryError (Option DictModelObj) :=
  match filter kwargs q with
  | Except.error e => Except.error e
  | Except.ok results =>
    if results.length = 0 then Except.error QueryError.noResultFound
    else if results.length > 1 then Except.error QueryError.multipleResultsFound
    else Except.ok (first results)

end DictModelQueryset

/-- Association-list update mirroring Python dict assignment
`d[key] = value`: an existing key keeps its position and gets the new value,
a new key is appended. -/
def assocSet {α : Type} [DecidableEq α] {β : Type} :
    List (α × β) → α → β → List (α × β)
  | [], k, v => [(k, v)]
  | (k', v') :: rest, k, v =>
    if k' = k then (k, v) :: rest else (k', v') :: assocSet rest k v

/-- Antisymmetry of integer `le`, packaged for the `List.max?`
characterisation lemma. -/
instance : Std.Antisymm (fun (a b : Int) => a ≤ b) :=
  ⟨fun hab hba => le_antisymm hab hba⟩

/-- The auto-assigned id of `dict_model_object`:
`max(list(object_data.keys())) + 1` when `object_data` is non-empty, else 1. -/
def nextAutoId (object_data : List (Int × List (String × PyValue))) : Int :=
  match (object_data.map Prod.fst).max? with
  | Option.some m => m + 1
  | Option.none => 1

/-- The mutable class-level state `dict_model_object` acts on: the
`object_data` mapping and the type-level constants set via `setattr`. -/
structure RegistrationState where
  object_data : List (Int × List (String × PyValue))
  constants : List (String × Int)
  deriving Repr

/-- `dict_model_object(dict_model_cls, type_id=None, constant_name=None)`
applied to a class named `typeName` whose custom attributes are `attrs`
(the `dir(type_cls) - dir(DictModel)` extraction itself is introspective and
is taken as an input here).  `if not type_id:` treats both `None` and `0` as
absent and auto-assigns; the constant name defaults to the upper-cased
snake-case class name (an empty explicit name is likewise falsy and ignored);
the entry is stored under the assigned id and the constant is set to it. -/
def dict_model_object (st : RegistrationState) (type_id : Option Int)
    (constant_name : Option String) (typeName : String)
    (attrs : List (String × PyValue)) : RegistrationState :=
  let tid : Int :=
    match type_id with
    | Option.none => nextAutoId st.object_data
    | Option.some t => if t = 0 then nextAutoId st.object_data else t
  let cname : String :=
    match constant_name with
    | Option.none => upperStr (snake_case typeName)
    | Option.some c => if c = "" then upperStr (snake_case typeName) else c
  { object_data := assocSet st.object_data tid attrs
    constants := assocSet st.constants cname tid }

/-
Specification-side predicates.  These follow the wording of the spec and the
claims, and are compared against the embedded code in the theorems below.
-/

/-- Whether a record matches a single criterion `key=value` in the sense the
spec describes: the named attribute is present and equals the expected value
(a missing attribute counts as a non-match). -/
def matchesOne (o : DictModelObj) (key : String) (value : PyValue) : Bool :=
  match o.getattr key with
  | Option.some x => pyEq x value
  | Option.none => false

/-- Whether a record matches every criterion of a criteria mapping. -/
def matchesAll (o : DictModelObj) (kwargs : List (String × PyValue)) : Bool :=
  kwargs.all (fun kv => matchesOne o kv.1 kv.2)

/-- The spec's reading of an entry's non-optional attribute keys: membership
of a key among the entry's keys with the optional fields removed. -/
def isRequiredKey (optional_fields : List String)
    (attrs : List (String × PyValue)) (k : String) : Prop :=
  k ∈ attrs.map Prod.fst ∧ k ∉ optional_fields

/-- The label rule for one `choices` entry as the amended claim states it:
the `choice` value when that key is present with a truthy value, otherwise
the `name` value when that key is present, otherwise None. -/
def labelSpec (attrs : List (String × PyValue)) : PyValue :=
  match attrs.lookup "choice" with
  | Option.some v =>
    if v.truthy then v
    else
      match attrs.lookup "name" with
      | Option.some n => n
      | Option.none => PyValue.none
  | Option.none =>
    match attrs.lookup "name" with
    | Option.some n => n
    | Option.none => PyValue.none

instance {ε α : Type} [DecidableEq ε] [DecidableEq α] : DecidableEq (Except ε α)
  | Except.error e, Except.error e' =>
    if h : e = e' then isTrue (by rw [h])
    else isFalse (by intro hc; cases hc; exact h rfl)
  | Except.error _, Except.ok _ => isFalse (by intro h; cases h)
  | Except.ok _, Except.error _ => isFalse (by intro h; cases h)
  | Except.ok a, Except.ok b =>
    if h : a = b then isTrue (by rw [h])
    else isFalse (by intro hc; cases hc; exact h rfl)

/-
Concrete fixtures, mirroring the repository's test data.
-/

/-- The `Example` dict model of `tests/test_dict_model_queryset.py`. -/
def exampleClass : DictModelClass :=
  { className := "Example"
    validate_fields := true
    optional_fields := []
    object_data :=
      [ (1, [("name", PyValue.str "a"), ("foo", PyValue.bool true),
             ("valid", PyValue.bool true)])
      , (2, [("name", PyValue.str "b"), ("foo", PyValue.bool false),
             ("valid", PyValue.bool true)])
      , (3, [("name", PyValue.str "c"), ("foo", PyValue.bool true),
             ("valid", PyValue.bool true)]) ] }

/-- `Example(1)` with no related object. -/
def ex1 : DictModelObj :=
  { className := "Example", id := 1, related := Option.none
    relatedName := "none_type"
    data := [("name", PyValue.str "a"), ("foo", PyValue.bool true),
             ("valid", PyValue.bool true)] }

/-- `Example(2)` with no related object. -/
def ex2 : DictModelObj :=
  { className := "Example", id := 2, related := Option.none
    relatedName := "none_type"
    data := [("name", PyValue.str "b"), ("foo", PyValue.bool false),
             ("valid", PyValue.bool true)] }

/-- `Example(3)` with no related object. -/
def ex3 : DictModelObj :=
  { className := "Example", id := 3, related := Option.none
    relatedName := "none_type"
    data := [("name", PyValue.str "c"), ("foo", PyValue.bool true),
             ("valid", PyValue.bool true)] }

/-- The queryset fixture `DictModelQueryset([Example(1), Example(2),
Example(3)])`. -/
def exampleQueryset : List DictModelObj := [ex1, ex2, ex3]

/-- The `Decisions` dict model of
`test_dict_model_choices_returns_tuple_of_ids_and_names`. -/
def decisionsClass : DictModelClass :=
  { className := "Decisions"
    validate_fields := true
    optional_fields := []
    object_data :=
      [ (1, [("name", PyValue.str "Yes")])
      , (2, [("name", PyValue.str "No")]) ] }

/-- A record whose data mapping lacks the `foo` (and `zoo`) attribute, used
to exercise `filter`/`exclude` on a missing attribute. -/
def exNoFoo : DictModelObj :=
  { className := "Weird", id := 9, related := Option.none
    relatedName := "none_type"
    data := [("name", PyValue.str "z")] }

/-- A `Decisions` variant whose entries carry both `choice` and `name` keys
(`test_dict_model_choices_prioritizes_choice_attribute_over_name_attribute`).
-/
def decisionsChoiceClass : DictModelClass :=
  { className := "Decisions"
    validate_fields := true
    optional_fields := []
    object_data :=
      [ (1, [("yes", PyValue.bool true), ("choice", PyValue.str "Y"),
             ("name", PyValue.str "YES")])
      , (2, [("yes", PyValue.bool false), ("choice", PyValue.str "N"),
             ("name", PyValue.str "NO")]) ] }

/-- A class with a `choice` key that is present but falsy (the empty string)
next to a `name` key: the counterexample input for the `choices` label rule. -/
def falsyChoiceClass : DictModelClass :=
  { className := "Falsy"
    validate_fields := true
    optional_fields := []
    object_data := [(1, [("choice", PyValue.str ""), ("name", PyValue.str "x")])] }

/-- A class whose first entry has no attribute keys at all while the second
has one: the counterexample input for the field-validation claim. -/
def emptyFirstClass : DictModelClass :=
  { className := "Invalid"
    validate_fields := true
    optional_fields := []
    object_data := [(1, []), (2, [("a", PyValue.int 1)])] }

/-- The `Invalid` class of
`test_dict_model_choices_raises_validation_error_for_inconsistent_fields`. -/
def invalidClass : DictModelClass :=
  { className := "Invalid"
    validate_fields := true
    optional_fields := []
    object_data :=
      [ (1, [("hello", PyValue.str "world")])
      , (2, [("foo", PyValue.str "bar")]) ] }

/-- The empty registration state: no entries, no constants. -/
def emptyRegistration : RegistrationState :=
  { object_data := [], constants := [] }

/-
Helper lemmas about the queryset operations.
-/

/-- A single criterion matches in `matchesAll` form. -/
theorem matchesAll_singleton (o : DictModelObj) (k : String) (v : PyValue) :
    matchesAll o [(k, v)] = matchesOne o k v := by
  simp [matchesAll]

/-- When every named attribute is present on the object, `_check_filter`
returns normally and computes exactly the spec's match predicate. -/
theorem check_filter_ok_of_present (o : DictModelObj)
    (kwargs : List (String × PyValue))
    (h : ∀ kv ∈ kwargs, (o.getattr kv.1).isSome) :
    DictModelQueryset.check_filter o kwargs = Except.ok (matchesAll o kwargs) := by
  induction kwargs with
  | nil => rfl
  | cons kv rest ih =>
    obtain ⟨k, v⟩ := kv
    have hk : (o.getattr k).isSome := h (k, v) (List.mem_cons_self _ _)
    obtain ⟨x, hx⟩ := Option.isSome_iff_exists.mp hk
    have hrest : ∀ kv ∈ rest, (o.getattr kv.1).isSome :=
      fun kv hkv => h kv (List.mem_cons_of_mem _ hkv)
    simp only [DictModelQueryset.check_filter, hx]
    by_cases hpe : pyEq x v = true
    · have : pyNe x v = false := by simp [pyNe, hpe]
      simp only [this, Bool.false_eq_true, if_false, ih hrest]
      simp [matchesAll, matchesOne, hx, hpe]
    · have : pyNe x v = true := by simp [pyNe, hpe]
      simp only [this, if_true]
      simp [matchesAll, matchesOne, hx, hpe]

/-- On a single criterion, `_check_filter` fails exactly when the attribute is
absent. -/
theorem check_filter_error_single (o : DictModelObj) (k : String) (v : PyValue)
    (h : o.getattr k = Option.none) :
    DictModelQueryset.check_filter o [(k, v)] = Except.error
      DictModelQueryset.QueryError.attrError := by
  simp [DictModelQueryset.check_filter, h]

/-- When every named attribute is present on every element, `filter` returns
normally and keeps exactly the matching elements, in order. -/
theorem filter_ok_of_present (q : List DictModelObj)
    (kwargs : List (String × PyValue))
    (h : ∀ o ∈ q, ∀ kv ∈ kwargs, (o.getattr kv.1).isSome) :
    DictModelQueryset.filter kwargs q =
      Except.ok (q.filter (fun o => matchesAll o kwargs)) := by
  induction q with
  | nil => rfl
  | cons o rest ih =>
    have ho := check_filter_ok_of_present o kwargs
      (h o (List.mem_cons_self _ _))
    have hrest := ih (fun o' ho' kv hkv => h o' (List.mem_cons_of_mem _ ho') kv hkv)
    simp only [DictModelQueryset.filter, ho, hrest, List.filter_cons]

/-- When every named attribute is present on every element, `exclude` returns
normally and keeps exactly the non-matching elements, in order. -/
theorem exclude_ok_of_present (q : List DictModelObj)
    (kwargs : List (String × PyValue))
    (h : ∀ o ∈ q, ∀ kv ∈ kwargs, (o.getattr kv.1).isSome) :
    DictModelQueryset.exclude kwargs q =
      Except.ok (q.filter (fun o => !matchesAll o kwargs)) := by
  induction q with
  | nil => rfl
  | cons o rest ih =>
    have ho := check_filter_ok_of_present o kwargs
      (h o (List.mem_cons_self _ _))
    have hrest := ih (fun o' ho' kv hkv => h o' (List.mem_cons_of_mem _ ho') kv hkv)
    simp only [DictModelQueryset.exclude, ho, hrest, List.filter_cons]
    by_cases hm : matchesAll o kwargs = true <;> simp [hm]

/-- A single element with the attribute absent makes `filter` on that single
criterion raise. -/
theorem filter_error_of_missing (q : List DictModelObj) (k : String)
    (v : PyValue) (h : ∃ o ∈ q, o.getattr k = Option.none) :
    DictModelQueryset.filter [(k, v)] q = Except.error
      DictModelQueryset.QueryError.attrError := by
  induction q with
  | nil => obtain ⟨o, ho, _⟩ := h; exact absurd ho (List.not_mem_nil o)
  | cons o rest ih =>
    obtain ⟨o', ho', hmiss⟩ := h
    rcases List.mem_cons.mp ho' with rfl | hmem
    · simp [DictModelQueryset.filter, check_filter_error_single o' k v hmiss]
    · have hrest := ih ⟨o', hmem, hmiss⟩
      cases hg : o.getattr k with
      | none =>
        simp [DictModelQueryset.filter, check_filter_error_single o k v hg]
      | some x =>
        simp only [DictModelQueryset.filter, DictModelQueryset.check_filter,
          hg, hrest]
        by_cases hne : pyNe x v = true <;> simp [hne]

/-- A single element with the attribute absent makes `exclude` on that single
criterion raise. -/
theorem exclude_error_of_missing (q : List DictModelObj) (k : String)
    (v : PyValue) (h : ∃ o ∈ q, o.getattr k = Option.none) :
    DictModelQueryset.exclude [(k, v)] q = Except.error
      DictModelQueryset.QueryError.attrError := by
  induction q with
  | nil => obtain ⟨o, ho, _⟩ := h; exact absurd ho (List.not_mem_nil o)
  | cons o rest ih =>
    obtain ⟨o', ho', hmiss⟩ := h
    rcases List.mem_cons.mp ho' with rfl | hmem
    · simp [DictModelQueryset.exclude, check_filter_error_single o' k v hmiss]
    · have hrest := ih ⟨o', hmem, hmiss⟩
      cases hg : o.getattr k with
      | none =>
        simp [DictModelQueryset.exclude, check_filter_error_single o k v hg]
      | some x =>
        simp only [DictModelQueryset.exclude, DictModelQueryset.check_filter,
          hg, hrest]
        by_cases hne : pyNe x v = true <;> simp [hne]

/-
Claim theorems.
-/

/-- C1, counterexample: on a collection containing an element whose data
mapping lacks the `foo` attribute, `filter(foo=True)` and `exclude(foo=True)`
raise an AttributeError instead of treating the element as a non-match: the
claim's predicted results (`filter` drops the element giving an empty
collection, `exclude` keeps it) do not occur. -/
theorem claim_c1_counterexample :
    DictModelQueryset.filter [("foo", PyValue.bool true)] [exNoFoo] =
      Except.error DictModelQueryset.QueryError.attrError ∧
    DictModelQueryset.exclude [("foo", PyValue.bool true)] [exNoFoo] =
      Except.error DictModelQueryset.QueryError.attrError ∧
    DictModelQueryset.filter [("foo", PyValue.bool true)] [exNoFoo] ≠
      Except.ok [] ∧
    DictModelQueryset.exclude [("foo", PyValue.bool true)] [exNoFoo] ≠
      Except.ok [exNoFoo] := by
  refine ⟨by decide, by decide, by decide, by decide⟩

/-- C1, amended: `filter(**criteria)` / `exclude(**criteria)` decide
membership by comparing each named attribute of each element to the expected
value — when every named attribute is present on every element, `filter`
keeps exactly the matching elements and `exclude` exactly the non-matching
ones, in order — but an element on which looking up a named attribute fails
is not treated as a non-match: the AttributeError propagates to the caller
from both `filter` and `exclude`. -/
theorem claim_c1_amended :
    (∀ (q : List DictModelObj) (kwargs : List (String × PyValue)),
      (∀ o ∈ q, ∀ kv ∈ kwargs, (o.getattr kv.1).isSome) →
      DictModelQueryset.filter kwargs q =
        Except.ok (q.filter (fun o => matchesAll o kwargs)) ∧
      DictModelQueryset.exclude kwargs q =
        Except.ok (q.filter (fun o => !matchesAll o kwargs))) ∧
    (∀ (q : List DictModelObj) (k : String) (v : PyValue),
      (∃ o ∈ q, o.getattr k = Option.none) →
      DictModelQueryset.filter [(k, v)] q =
        Except.error DictModelQueryset.QueryError.attrError ∧
      DictModelQueryset.exclude [(k, v)] q =
        Except.error DictModelQueryset.QueryError.attrError) :=
  ⟨fun q kwargs h =>
    ⟨filter_ok_of_present q kwargs h, exclude_ok_of_present q kwargs h⟩,
   fun q k v h =>
    ⟨filter_error_of_missing q k v h, exclude_error_of_missing q k v h⟩⟩

/-- Witness for the amended C1 at the repository's queryset fixture and at a
record lacking the named attribute. -/
theorem claim_c1_amended_witness :
    DictModelQueryset.filter [("foo", PyValue.bool true)] exampleQueryset =
      Except.ok [ex1, ex3] ∧
    DictModelQueryset.exclude [("foo", PyValue.bool true)] exampleQueryset =
      Except.ok [ex2] ∧
    DictModelQueryset.filter [("zoo", PyValue.none)] [exNoFoo] =
      Except.error DictModelQueryset.QueryError.attrError := by
  have h1 := claim_c1_amended.1 exampleQueryset [("foo", PyValue.bool true)]
    (by decide)
  have h2 := claim_c1_amended.2 [exNoFoo] "zoo" PyValue.none
    ⟨exNoFoo, by decide, by decide⟩
  exact ⟨h1.1.trans (by decide), h1.2.trans (by decide), h2.1⟩

/-- C2 (code bug): `count` ignores its `item` argument and always returns the
length of the collection.  On the repository's own test fixture
(`test_dict_model_queryset_count_returns_count_of_object`),
`queryset.count(Example(1))` evaluates to 3, while exactly one element of the
collection is equal (by id-based Record equality) to `Example(1)` — the test
asserts 1. -/
theorem claim_c2_count_bug :
    DictModelQueryset.count exampleQueryset (Option.some ex1.asAny) = 3 ∧
    exampleQueryset.countP (fun o => DictModel.eq o ex1.asAny) = 1 ∧
    DictModelQueryset.count exampleQueryset (Option.some ex1.asAny) ≠
      exampleQueryset.countP (fun o => DictModel.eq o ex1.asAny) := by
  refine ⟨by decide, by decide, by decide⟩

/-- C8: two records (of the same or of different record types) are equal
exactly when their `id` attributes are equal, and comparing a record against
a value with no `id` attribute yields `false` (the AttributeError is caught)
rather than raising. -/
theorem claim_c8_eq :
    (∀ r1 r2 : DictModelObj, DictModel.eq r1 r2.asAny = true ↔ r1.id = r2.id) ∧
    (∀ (r : DictModelObj) (o : AnyObj), o.idAttr = Option.none →
      DictModel.eq r o = false) := by
  constructor
  · intro r1 r2
    simp [DictModel.eq, DictModelObj.asAny]
  · intro r o h
    simp [DictModel.eq, h]

/-- Witness for C8: records of different classes with equal ids compare
equal, records with different ids do not, and a record compared against a
value with no `id` attribute yields `false`. -/
theorem claim_c8_eq_witness :
    DictModel.eq ex1
      (DictModelObj.mk "Other" 1 Option.none "none_type" []).asAny = true ∧
    DictModel.eq ex1 ex2.asAny = false ∧
    DictModel.eq ex1 ⟨Option.none⟩ = false := by
  refine ⟨(claim_c8_eq.1 ex1 _).mpr (by decide), ?_, claim_c8_eq.2 ex1 ⟨Option.none⟩ rfl⟩
  have h := claim_c8_eq.1 ex1 ex2
  revert h
  cases hb : DictModel.eq ex1 ex2.asAny
  · intro _; rfl
  · intro h; exact absurd (h.mp rfl) (by decide)

/-- C9: `first()` returns the head of a non-empty collection and `last()` its
final element (insertion order); on an empty collection both return `None`
and raise nothing. -/
theorem claim_c9_first_last (q : List DictModelObj) :
    (q = [] → DictModelQueryset.first q = Option.none ∧
      DictModelQueryset.last q = Option.none) ∧
    (∀ x xs, q = x :: xs → DictModelQueryset.first q = Option.some x) ∧
    (∀ xs x, q = xs ++ [x] → DictModelQueryset.last q = Option.some x) := by
  refine ⟨?_, ?_, ?_⟩
  · rintro rfl; exact ⟨rfl, rfl⟩
  · rintro x xs rfl; rfl
  · rintro xs x rfl
    exact List.getLast?_concat xs

/-- Witness for C9 at the repository's queryset fixture and at the empty
collection. -/
theorem claim_c9_first_last_witness :
    DictModelQueryset.first exampleQueryset = Option.some ex1 ∧
    DictModelQueryset.last exampleQueryset = Option.some ex3 ∧
    DictModelQueryset.first [] = Option.none ∧
    DictModelQueryset.last [] = Option.none := by
  refine ⟨(claim_c9_first_last exampleQueryset).2.1 ex1 [ex2, ex3] rfl,
    (claim_c9_first_last exampleQueryset).2.2 [ex1, ex2] ex3 rfl,
    ((claim_c9_first_last []).1 rfl).1, ((claim_c9_first_last []).1 rfl).2⟩

/-- C10: constructing a record with the default related object
(`related=None`) succeeds for every id present in the static data mapping,
sets `related_name` to `"none_type"` (the snake-case form of `NoneType`),
binds an instance attribute named `none_type` whose value is `None`, and sets
`related` to `None`. -/
theorem claim_c10_default_related (cls : DictModelClass) (i : Int)
    (d : List (String × PyValue))
    (h : cls.object_data.lookup i = Option.some d) :
    ∃ r, DictModel.mkRecord cls i Option.none = Option.some r ∧
      r.relatedName = "none_type" ∧
      r.getattr "none_type" = Option.some PyValue.none ∧
      r.related = Option.none ∧
      r.data = d := by
  refine ⟨⟨cls.className, i, Option.none,
    snake_case (DictModel.relatedTypeName Option.none), d⟩,
    ?_, by rfl, by rfl, rfl, rfl⟩
  simp [DictModel.mkRecord, h]

/-- Witness for C10 at the `Example` class and id 1. -/
theorem claim_c10_default_related_witness :
    ∃ r, DictModel.mkRecord exampleClass 1 Option.none = Option.some r ∧
      r.relatedName = "none_type" ∧
      r.getattr "none_type" = Option.some PyValue.none ∧
      r.related = Option.none ∧
      r.data = [("name", PyValue.str "a"), ("foo", PyValue.bool true),
        ("valid", PyValue.bool true)] :=
  claim_c10_default_related exampleClass 1 _ (by decide)

/-- C6: when `filter(**criteria)` returns normally, `get(**criteria)` raises
NoResultFound on zero matches, MultipleResultsFound on two or more matches,
and on exactly one match returns the sole matching element — the result of
`filter(**criteria).first()`. -/
theorem claim_c6_get (q : List DictModelObj) (kwargs : List (String × PyValue))
    (l : List DictModelObj)
    (hl : DictModelQueryset.filter kwargs q = Except.ok l) :
    (l = [] → DictModelQueryset.get kwargs q =
      Except.error DictModelQueryset.QueryError.noResultFound) ∧
    (1 < l.length → DictModelQueryset.get kwargs q =
      Except.error DictModelQueryset.QueryError.multipleResultsFound) ∧
    (∀ x, l = [x] →
      DictModelQueryset.get kwargs q = Except.ok (Option.some x) ∧
      DictModelQueryset.first l = Option.some x) := by
  refine ⟨?_, ?_, ?_⟩
  · rintro rfl
    simp [DictModelQueryset.get, hl]
  · intro hlen
    have h0 : ¬ l.length = 0 := by omega
    simp [DictModelQueryset.get, hl, h0, hlen]
  · rintro x rfl
    simp [DictModelQueryset.get, hl, DictModelQueryset.first]

/-- Witness for C6 at the repository's queryset fixture: one match, zero
matches and two matches. -/
theorem claim_c6_get_witness :
    DictModelQueryset.get [("name", PyValue.str "b")] exampleQueryset =
      Except.ok (Option.some ex2) ∧
    DictModelQueryset.get [("foo", PyValue.str "invalid")] exampleQueryset =
      Except.error DictModelQueryset.QueryError.noResultFound ∧
    DictModelQueryset.get [("foo", PyValue.bool true)] exampleQueryset =
      Except.error DictModelQueryset.QueryError.multipleResultsFound := by
  refine ⟨((claim_c6_get exampleQueryset _ [ex2] (by decide)).2.2 ex2 rfl).1,
    (claim_c6_get exampleQueryset _ [] (by decide)).1 rfl,
    (claim_c6_get exampleQueryset _ [ex1, ex3] (by decide)).2.1 (by decide)⟩

/-- C7: on elements that all possess both named attributes, chaining
`filter(k=v)` and `exclude(k2=v2)` — in either order — equals a single pass
keeping the elements that match the first criterion and do not match the
second, preserving relative order; each operation builds a new collection
(the original list is untouched by construction). -/
theorem claim_c7_chain_commute (q : List DictModelObj) (k k2 : String)
    (v v2 : PyValue)
    (h : ∀ o ∈ q, (o.getattr k).isSome ∧ (o.getattr k2).isSome) :
    Except.bind (DictModelQueryset.filter [(k, v)] q)
        (DictModelQueryset.exclude [(k2, v2)]) =
      Except.ok (q.filter (fun o => matchesOne o k v && !matchesOne o k2 v2)) ∧
    Except.bind (DictModelQueryset.filter [(k, v)] q)
        (DictModelQueryset.exclude [(k2, v2)]) =
      Except.bind (DictModelQueryset.exclude [(k2, v2)] q)
        (DictModelQueryset.filter [(k, v)]) := by
  have h1 : ∀ o ∈ q, ∀ kv ∈ ([(k, v)] : List (String × PyValue)),
      (o.getattr kv.1).isSome := by
    intro o ho kv hkv
    rw [List.mem_singleton] at hkv
    subst hkv
    exact (h o ho).1
  have h2 : ∀ o ∈ q, ∀ kv ∈ ([(k2, v2)] : List (String × PyValue)),
      (o.getattr kv.1).isSome := by
    intro o ho kv hkv
    rw [List.mem_singleton] at hkv
    subst hkv
    exact (h o ho).2
  have hf := filter_ok_of_present q [(k, v)] h1
  have he := exclude_ok_of_present q [(k2, v2)] h2
  have hfe := exclude_ok_of_present
    (q.filter (fun o => matchesAll o [(k, v)])) [(k2, v2)]
    (fun o ho kv hkv => h2 o (List.mem_of_mem_filter ho) kv hkv)
  have hef := filter_ok_of_present
    (q.filter (fun o => !matchesAll o [(k2, v2)])) [(k, v)]
    (fun o ho kv hkv => h1 o (List.mem_of_mem_filter ho) kv hkv)
  have key1 : Except.bind (DictModelQueryset.filter [(k, v)] q)
      (DictModelQueryset.exclude [(k2, v2)]) =
      Except.ok (q.filter (fun o => matchesOne o k v && !matchesOne o k2 v2)) := by
    rw [hf]
    show DictModelQueryset.exclude [(k2, v2)]
      (q.filter (fun o => matchesAll o [(k, v)])) = _
    rw [hfe, List.filter_filter]
    congr 1
    refine List.filter_congr ?_
    intro x _
    rw [matchesAll_singleton, matchesAll_singleton, Bool.and_comm]
  have key2 : Except.bind (DictModelQueryset.exclude [(k2, v2)] q)
      (DictModelQueryset.filter [(k, v)]) =
      Except.ok (q.filter (fun o => matchesOne o k v && !matchesOne o k2 v2)) := by
    rw [he]
    show DictModelQueryset.filter [(k, v)]
      (q.filter (fun o => !matchesAll o [(k2, v2)])) = _
    rw [hef, List.filter_filter]
    congr 1
    refine List.filter_congr ?_
    intro x _
    rw [matchesAll_singleton, matchesAll_singleton]
  exact ⟨key1, key1.trans key2.symm⟩

/-- Witness for C7 at the repository's chained-call fixture
(`queryset.filter(foo=True).exclude(name="a") == [Example(3)]`). -/
theorem claim_c7_chain_commute_witness :
    Except.bind
        (DictModelQueryset.filter [("foo", PyValue.bool true)] exampleQueryset)
        (DictModelQueryset.exclude [("name", PyValue.str "a")]) =
      Except.ok [ex3] ∧
    Except.bind
        (DictModelQueryset.filter [("foo", PyValue.bool true)] exampleQueryset)
        (DictModelQueryset.exclude [("name", PyValue.str "a")]) =
      Except.bind
        (DictModelQueryset.exclude [("name", PyValue.str "a")] exampleQueryset)
        (DictModelQueryset.filter [("foo", PyValue.bool true)]) := by
  have h := claim_c7_chain_commute exampleQueryset "foo" "name"
    (PyValue.bool true) (PyValue.str "a") (by decide)
  exact ⟨h.1.trans (by decide), h.2⟩

/-- The code's label computation agrees with the amended label rule. -/
theorem choiceLabel_eq_labelSpec (attrs : List (String × PyValue)) :
    DictModel.choiceLabel attrs = labelSpec attrs := by
  unfold DictModel.choiceLabel labelSpec
  cases hc : attrs.lookup "choice" with
  | none =>
    cases hn : attrs.lookup "name" with
    | none => simp [PyValue.truthy]
    | some n => simp [PyValue.truthy]
  | some v =>
    cases hn : attrs.lookup "name" with
    | none => by_cases hv : v.truthy = true <;> simp [hv]
    | some n => by_cases hv : v.truthy = true <;> simp [hv]

/-- C5, counterexample: over `{1: {"choice": "", "name": "x"}}` the claim
predicts the label `""` (the `choice` key is present), but the code's
`get("choice") or get("name")` discards the falsy `choice` value and yields
`"x"`. -/
theorem claim_c5_counterexample :
    DictModel.choices falsyChoiceClass = Except.ok [(1, PyValue.str "x")] ∧
    DictModel.choices falsyChoiceClass ≠ Except.ok [(1, PyValue.str "")] := by
  exact ⟨by decide, by decide⟩

/-- C5, amended: `choices()` first runs field validation (an error is
returned unchanged), then maps each entry in insertion order to `(id,
label)` where the label is the `choice` value when that key is present with
a truthy value, otherwise the `name` value when present, otherwise None; in
particular it returns `[(1, "Yes"), (2, "No")]` over the `Decisions` data,
and a truthy `choice` wins over `name`. -/
theorem claim_c5_amended :
    (∀ cls : DictModelClass, DictModel.choices cls =
      match DictModel.validate_fields_check cls with
      | Except.error e => Except.error e
      | Except.ok () =>
        Except.ok (cls.object_data.map fun p => (p.1, labelSpec p.2))) ∧
    DictModel.choices decisionsClass =
      Except.ok [(1, PyValue.str "Yes"), (2, PyValue.str "No")] ∧
    DictModel.choices decisionsChoiceClass =
      Except.ok [(1, PyValue.str "Y"), (2, PyValue.str "N")] := by
  refine ⟨?_, by decide, by decide⟩
  intro cls
  unfold DictModel.choices
  cases DictModel.validate_fields_check cls with
  | error e => rfl
  | ok u =>
    cases u
    simp [choiceLabel_eq_labelSpec]

/-- Membership in an entry's canonical field list is exactly the spec's
non-optional-key predicate. -/
theorem mem_canonicalFields (optional_fields : List String)
    (attrs : List (String × PyValue)) (k : String) :
    k ∈ DictModel.canonicalFields optional_fields attrs ↔
      isRequiredKey optional_fields attrs k := by
  unfold DictModel.canonicalFields isRequiredKey
  rw [List.mem_insertionSort, List.mem_filter, List.mem_dedup]
  simp

/-- Canonical field lists carry no duplicates. -/
theorem canonicalFields_nodup (optional_fields : List String)
    (attrs : List (String × PyValue)) :
    (DictModel.canonicalFields optional_fields attrs).Nodup := by
  unfold DictModel.canonicalFields
  exact (List.perm_insertionSort strLeRel _).nodup_iff.mpr
    ((List.nodup_dedup _).filter _)

/-- Canonical field lists are sorted in the string order. -/
theorem canonicalFields_sorted (optional_fields : List String)
    (attrs : List (String × PyValue)) :
    List.Sorted strLeRel (DictModel.canonicalFields optional_fields attrs) :=
  List.sorted_insertionSort strLeRel _

/-- Two entries have equal canonical field lists exactly when they agree on
every non-optional key: sorted duplicate-free lists are determined by their
members. -/
theorem canonicalFields_eq_iff (optional_fields : List String)
    (a b : List (String × PyValue)) :
    DictModel.canonicalFields optional_fields a =
        DictModel.canonicalFields optional_fields b ↔
      ∀ k, isRequiredKey optional_fields a k ↔
        isRequiredKey optional_fields b k := by
  constructor
  · intro h k
    rw [← mem_canonicalFields, ← mem_canonicalFields, h]
  · intro h
    have hperm : (DictModel.canonicalFields optional_fields a).Perm
        (DictModel.canonicalFields optional_fields b) :=
      (List.perm_ext_iff_of_nodup (canonicalFields_nodup _ _)
          (canonicalFields_nodup _ _)).mpr
        (fun k => by
          rw [mem_canonicalFields, mem_canonicalFields]; exact h k)
    exact List.eq_of_perm_of_sorted hperm (canonicalFields_sorted _ _)
      (canonicalFields_sorted _ _)

/-- A canonical field list is non-empty exactly when the entry has some
non-optional key. -/
theorem canonicalFields_ne_nil_iff (optional_fields : List String)
    (attrs : List (String × PyValue)) :
    DictModel.canonicalFields optional_fields attrs ≠ [] ↔
      ∃ k, isRequiredKey optional_fields attrs k := by
  constructor
  · intro h
    obtain ⟨k, hk⟩ := List.exists_mem_of_ne_nil _ h
    exact ⟨k, (mem_canonicalFields _ _ _).mp hk⟩
  · rintro ⟨k, hk⟩ heq
    have hm := (mem_canonicalFields optional_fields attrs k).mpr hk
    rw [heq] at hm
    exact absurd hm (List.not_mem_nil k)

/-- The validation loop either succeeds or raises the ValidationError whose
message names the class. -/
theorem validateFieldsGo_ok_or_error (className : String)
    (acc : Option (List String)) (fs : List (List String)) :
    DictModel.validateFieldsGo className acc fs = Except.ok () ∨
    DictModel.validateFieldsGo className acc fs =
      Except.error (className ++ ": Fields do not match!") := by
  induction fs generalizing acc with
  | nil => exact Or.inl rfl
  | cons tf rest ih =>
    simp only [DictModel.validateFieldsGo]
    split
    · exact Or.inr rfl
    · exact ih _

/-- With a non-empty running field list, the validation loop succeeds exactly
when every remaining entry has that same field list. -/
theorem validateFieldsGo_some_ok_iff (className : String) (f : List String)
    (hf : f ≠ []) (fs : List (List String)) :
    DictModel.validateFieldsGo className (Option.some f) fs = Except.ok () ↔
      ∀ tf ∈ fs, tf = f := by
  induction fs with
  | nil => simp [DictModel.validateFieldsGo]
  | cons tf rest ih =>
    obtain ⟨k, ks, rfl⟩ : ∃ k ks, f = k :: ks := by
      cases f with
      | nil => exact absurd rfl hf
      | cons k ks => exact ⟨k, ks, rfl⟩
    by_cases h : k :: ks = tf
    · subst h
      simp only [DictModel.validateFieldsGo]
      rw [if_neg (by simp)]
      rw [ih]
      constructor
      · intro hall tf' htf'
        rcases List.mem_cons.mp htf' with rfl | hmem
        · rfl
        · exact hall tf' hmem
      · intro hall tf' htf'
        exact hall tf' (List.mem_cons_of_mem _ htf')
    · have hne : tf ≠ k :: ks := fun hh => h hh.symm
      simp only [DictModel.validateFieldsGo]
      rw [if_pos (show (k :: ks : List String) ≠ tf from h)]
      constructor
      · intro hcontra
        exact absurd hcontra (by simp)
      · intro hall
        exact absurd (hall tf (List.mem_cons_self _ _)) hne

/-- Starting from no running field list, when every entry's field list is
non-empty the loop succeeds exactly when all field lists agree pairwise. -/
theorem validateFieldsGo_none_ok_iff (className : String)
    (fs : List (List String)) (hne : ∀ tf ∈ fs, tf ≠ ([] : List String)) :
    DictModel.validateFieldsGo className Option.none fs = Except.ok () ↔
      ∀ tf ∈ fs, ∀ tf' ∈ fs, tf = tf' := by
  cases fs with
  | nil => simp [DictModel.validateFieldsGo]
  | cons tf0 rest =>
    have h0 : tf0 ≠ [] := hne tf0 (List.mem_cons_self _ _)
    simp only [DictModel.validateFieldsGo]
    rw [if_neg (by simp)]
    rw [validateFieldsGo_some_ok_iff className tf0 h0 rest]
    constructor
    · intro hall tf htf tf' htf'
      rcases List.mem_cons.mp htf with rfl | hmem <;>
        rcases List.mem_cons.mp htf' with rfl | hmem'
      · rfl
      · exact (hall tf' hmem').symm
      · exact hall tf hmem
      · exact (hall tf hmem).trans (hall tf' hmem').symm
    · intro hall tf htf
      exact hall tf (List.mem_cons_of_mem _ htf) tf0 (List.mem_cons_self _ _)

/-- C3, counterexample: over `{1: {}, 2: {"a": 1}}` (validation enabled, no
optional fields) the two entries disagree on their non-optional key sets, so
the claim predicts a ValidationError — but `_fields = _fields or type_fields`
treats the first entry's empty field list as unset, and validation passes. -/
theorem claim_c3_counterexample :
    DictModel.validate_fields_check emptyFirstClass = Except.ok () ∧
    ¬ (∀ p ∈ emptyFirstClass.object_data, ∀ q ∈ emptyFirstClass.object_data,
        ∀ k, isRequiredKey emptyFirstClass.optional_fields p.2 k ↔
          isRequiredKey emptyFirstClass.optional_fields q.2 k) := by
  constructor
  · decide
  · intro hcontra
    have h := (hcontra (2, [("a", PyValue.int 1)]) (by decide)
        (1, ([] : List (String × PyValue))) (by decide) "a").mp
      ⟨by decide, by decide⟩
    exact absurd h.1 (List.not_mem_nil "a")

/-- C3, amended: with the type-level flag disabled validation is skipped
entirely; when it runs it either succeeds or fails with the ValidationError
message naming the type; and — provided every entry has at least one
non-optional attribute key — it succeeds exactly when all entries agree on
their non-optional key sets (so any single disagreeing entry causes the
error, and marking the differing key optional suppresses it).  Entries whose
non-optional key set is empty weaken the check: a leading run of such
entries is never compared against the later entries. -/
theorem claim_c3_amended :
    (∀ cls : DictModelClass, cls.validate_fields = false →
      DictModel.validate_fields_check cls = Except.ok ()) ∧
    (∀ cls : DictModelClass,
      DictModel.validate_fields_check cls = Except.ok () ∨
      DictModel.validate_fields_check cls =
        Except.error (cls.className ++ ": Fields do not match!")) ∧
    (∀ cls : DictModelClass, cls.validate_fields = true →
      (∀ p ∈ cls.object_data, ∃ k, isRequiredKey cls.optional_fields p.2 k) →
      (DictModel.validate_fields_check cls = Except.ok () ↔
        ∀ p ∈ cls.object_data, ∀ q ∈ cls.object_data, ∀ k,
          isRequiredKey cls.optional_fields p.2 k ↔
            isRequiredKey cls.optional_fields q.2 k)) := by
  refine ⟨?_, ?_, ?_⟩
  · intro cls h
    unfold DictModel.validate_fields_check
    rw [h]
    rfl
  · intro cls
    unfold DictModel.validate_fields_check
    by_cases h : cls.validate_fields
    · rw [h]
      simp only [Bool.not_true, Bool.false_eq_true, if_false]
      exact validateFieldsGo_ok_or_error _ _ _
    · rw [Bool.not_eq_true] at h
      rw [h]
      exact Or.inl rfl
  · intro cls hflag hne
    unfold DictModel.validate_fields_check
    rw [hflag]
    simp only [Bool.not_true, Bool.false_eq_true, if_false]
    have hne' : ∀ tf ∈ cls.object_data.map
        (fun p => DictModel.canonicalFields cls.optional_fields p.2),
        tf ≠ ([] : List String) := by
      intro tf htf
      obtain ⟨p, hp, rfl⟩ := List.mem_map.mp htf
      exact (canonicalFields_ne_nil_iff _ _).mpr (hne p hp)
    rw [validateFieldsGo_none_ok_iff cls.className _ hne']
    constructor
    · intro hall p hp q hq
      exact (canonicalFields_eq_iff _ _ _).mp
        (hall _ (List.mem_map_of_mem _ hp) _ (List.mem_map_of_mem _ hq))
    · intro hall tf htf tf' htf'
      obtain ⟨p, hp, rfl⟩ := List.mem_map.mp htf
      obtain ⟨q, hq, rfl⟩ := List.mem_map.mp htf'
      exact (canonicalFields_eq_iff _ _ _).mpr (fun k => hall p hp q hq k)

/-- Witness for the amended C3: the flag-off branch at a class with
mismatched entries, and the agreement criterion at the consistent `Example`
class. -/
theorem claim_c3_amended_witness :
    DictModel.validate_fields_check
      (DictModelClass.mk "Skipped" false []
        [(1, []), (2, [("a", PyValue.int 1)])]) = Except.ok () ∧
    DictModel.validate_fields_check exampleClass = Except.ok () := by
  constructor
  · exact claim_c3_amended.1 _ rfl
  · refine (claim_c3_amended.2.2 exampleClass rfl ?_).mpr ?_
    · intro p hp
      have hp' : p = (1, [("name", PyValue.str "a"), ("foo", PyValue.bool true),
            ("valid", PyValue.bool true)]) ∨
          p = (2, [("name", PyValue.str "b"), ("foo", PyValue.bool false),
            ("valid", PyValue.bool true)]) ∨
          p = (3, [("name", PyValue.str "c"), ("foo", PyValue.bool true),
            ("valid", PyValue.bool true)]) := by
        simpa [exampleClass] using hp
      rcases hp' with rfl | rfl | rfl <;> exact ⟨"name", by decide, by decide⟩
    · intro p hp q hq k
      have hp' : p = (1, [("name", PyValue.str "a"), ("foo", PyValue.bool true),
            ("valid", PyValue.bool true)]) ∨
          p = (2, [("name", PyValue.str "b"), ("foo", PyValue.bool false),
            ("valid", PyValue.bool true)]) ∨
          p = (3, [("name", PyValue.str "c"), ("foo", PyValue.bool true),
            ("valid", PyValue.bool true)]) := by
        simpa [exampleClass] using hp
      have hq' : q = (1, [("name", PyValue.str "a"), ("foo", PyValue.bool true),
            ("valid", PyValue.bool true)]) ∨
          q = (2, [("name", PyValue.str "b"), ("foo", PyValue.bool false),
            ("valid", PyValue.bool true)]) ∨
          q = (3, [("name", PyValue.str "c"), ("foo", PyValue.bool true),
            ("valid", PyValue.bool true)]) := by
        simpa [exampleClass] using hq
      rcases hp' with rfl | rfl | rfl <;> rcases hq' with rfl | rfl | rfl <;>
        exact Iff.rfl

/-- Updating an association list at a key it does not contain appends the new
entry at the end. -/
theorem assocSet_append_of_fresh {β : Type} (od : List (Int × β)) (k : Int)
    (v : β) (h : k ∉ od.map Prod.fst) : assocSet od k v = od ++ [(k, v)] := by
  induction od with
  | nil => rfl
  | cons p rest ih =>
    obtain ⟨k', v'⟩ := p
    rw [List.map_cons, List.mem_cons] at h
    push_neg at h
    have hne : ¬ k' = k := fun hh => h.1 hh.symm
    simp [assocSet, hne, ih h.2]

/-- The maximum returned by `List.max?` on integer lists is a member and an
upper bound. -/
theorem max?_int_spec (l : List Int) (m : Int) (h : l.max? = Option.some m) :
    m ∈ l ∧ ∀ k ∈ l, k ≤ m := by
  rw [List.max?_eq_some_iff] at h
  · exact h
  · exact fun a => le_refl a
  · exact fun a b => max_choice a b
  · exact fun a b c => max_le_iff

/-- C4, counterexample: on an empty mapping, supplying the explicit id 0 is
not honored — `if not type_id:` treats 0 as absent and assigns the
auto-incremented id 1 instead. -/
theorem claim_c4_counterexample :
    (dict_model_object emptyRegistration (Option.some 0) Option.none "Zero"
      []).object_data = [(1, [])] ∧
    (dict_model_object emptyRegistration (Option.some 0) Option.none "Zero"
      []).object_data ≠ [(0, [])] := by
  exact ⟨by decide, by decide⟩

/-- C4, amended: with no explicit id (and on an empty mapping also with the
explicit id 0, which is falsy and treated as absent) the helper appends a new
entry keyed one more than the current maximum id, or 1 when the mapping is
empty; an explicit nonzero id is honored verbatim; registering three types in
sequence on an empty mapping assigns ids 1, 2, 3; and after an explicit id,
subsequent auto-assigned ids continue from the new maximum. -/
theorem claim_c4_amended :
    (∀ (st : RegistrationState) (cn : Option String) (tn : String)
        (attrs : List (String × PyValue)),
      st.object_data = [] →
      (dict_model_object st Option.none cn tn attrs).object_data =
        [(1, attrs)]) ∧
    (∀ (st : RegistrationState) (cn : Option String) (tn : String)
        (attrs : List (String × PyValue)),
      st.object_data ≠ [] →
      ∃ m, m ∈ st.object_data.map Prod.fst ∧
        (∀ k ∈ st.object_data.map Prod.fst, k ≤ m) ∧
        (dict_model_object st Option.none cn tn attrs).object_data =
          st.object_data ++ [(m + 1, attrs)]) ∧
    (∀ (st : RegistrationState) (t : Int) (cn : Option String) (tn : String)
        (attrs : List (String × PyValue)), t ≠ 0 →
      (dict_model_object st (Option.some t) cn tn attrs).object_data =
        assocSet st.object_data t attrs) ∧
    ((dict_model_object (dict_model_object (dict_model_object
        emptyRegistration Option.none Option.none "AThing" [])
        Option.none Option.none "BThing" [])
        Option.none Option.none "CThing" []).object_data.map Prod.fst =
      [1, 2, 3]) ∧
    ((dict_model_object (dict_model_object emptyRegistration
        (Option.some 6) Option.none "AThing" [])
        Option.none Option.none "BThing" []).object_data.map Prod.fst =
      [6, 7]) := by
  refine ⟨?_, ?_, ?_, by decide, by decide⟩
  · intro st cn tn attrs h
    simp [dict_model_object, nextAutoId, h, assocSet]
  · intro st cn tn attrs h
    have hkeys : st.object_data.map Prod.fst ≠ [] := by
      intro hk
      exact h (List.map_eq_nil_iff.mp hk)
    obtain ⟨m, hm⟩ : ∃ m, (st.object_data.map Prod.fst).max? =
        Option.some m := by
      cases hmax : (st.object_data.map Prod.fst).max? with
      | none => exact absurd (List.max?_eq_none_iff.mp hmax) hkeys
      | some m => exact ⟨m, rfl⟩
    obtain ⟨hmem, hub⟩ := max?_int_spec _ m hm
    refine ⟨m, hmem, hub, ?_⟩
    have hfresh : m + 1 ∉ st.object_data.map Prod.fst := by
      intro hin
      have := hub _ hin
      omega
    simp only [dict_model_object, nextAutoId, hm]
    exact assocSet_append_of_fresh _ _ _ hfresh
  · intro st t cn tn attrs ht
    simp [dict_model_object, ht]

/-- Witness for the amended C4: the first registration on an empty mapping
gets id 1, an explicit nonzero id is stored verbatim, and the auto-assigned
id after an explicit one continues from the new maximum. -/
theorem claim_c4_amended_witness :
    (dict_model_object emptyRegistration Option.none Option.none "AThing"
      []).object_data = [(1, [])] ∧
    (dict_model_object emptyRegistration (Option.some 6) Option.none "AThing"
      []).object_data = [(6, [])] ∧
    ∃ m, m ∈ (RegistrationState.mk [(6, ([] : List (String × PyValue)))]
        [("A_THING", 6)]).object_data.map Prod.fst ∧
      (∀ k ∈ (RegistrationState.mk [(6, ([] : List (String × PyValue)))]
        [("A_THING", 6)]).object_data.map Prod.fst, k ≤ m) ∧
      (dict_model_object (RegistrationState.mk
          [(6, ([] : List (String × PyValue)))] [("A_THING", 6)])
          Option.none Option.none "BThing" []).object_data =
        (RegistrationState.mk [(6, ([] : List (String × PyValue)))]
          [("A_THING", 6)]).object_data ++ [(m + 1, [])] := by
  refine ⟨claim_c4_amended.1 emptyRegistration Option.none "AThing" [] rfl,
    (claim_c4_amended.2.2.1 emptyRegistration 6 Option.none "AThing" []
      (by decide)).trans (by decide),
    claim_c4_amended.2.1 _ Option.none "BThing" [] (by decide)⟩

/-- C7, counterexample: on a collection whose element has a `name` attribute
but no `foo` attribute, `filter(foo=True).exclude(name="z")` raises an
AttributeError while `exclude(name="z").filter(foo=True)` returns an empty
collection — the order of chaining does affect the outcome. -/
theorem claim_c7_counterexample :
    Except.bind
        (DictModelQueryset.filter [("foo", PyValue.bool true)] [exNoFoo])
        (DictModelQueryset.exclude [("name", PyValue.str "z")]) =
      Except.error DictModelQueryset.QueryError.attrError ∧
    Except.bind
        (DictModelQueryset.exclude [("name", PyValue.str "z")] [exNoFoo])
        (DictModelQueryset.filter [("foo", PyValue.bool true)]) =
      Except.ok [] ∧
    Except.bind
        (DictModelQueryset.filter [("foo", PyValue.bool true)] [exNoFoo])
        (DictModelQueryset.exclude [("name", PyValue.str "z")]) ≠
      Except.bind
        (DictModelQueryset.exclude [("name", PyValue.str "z")] [exNoFoo])
        (DictModelQueryset.filter [("foo", PyValue.bool true)]) := by
  exact ⟨by decide, by decide, by decide⟩
